import Mathlib

/-!
A shallow embedding of the file-record service of the cloud-drop-portal
repository (`src/services/fileService.ts`), together with theorems checking
the natural-language specification of that service against the code.

Modelling conventions:
* Timestamps are integers counting milliseconds (mirroring `Date.now()`).
* The Supabase storage bucket is a list of object paths; the
  `file_metadata` table is a list of rows; every request issued to either
  backend is appended to a call trace, so that "no backend call is made"
  and "call A happens before call B" are provable statements.
* A signed URL is represented by the data it encodes: the object path and
  the lifetime in seconds passed to `createSignedUrl`.
* Backend failures are injected through an `Env` of failure flags, one per
  fallible backend request, mirroring the `error` results the code checks.
* JavaScript truthiness of `expiresIn : number | null` is modelled on
  `Option Int`: `null` and `0` are falsy, every other integer is truthy.
-/

deriving instance DecidableEq for Except

namespace CloudDrop

/-- A signed retrieval URL, represented by the data `createSignedUrl`
embeds in it: the storage path and the lifetime in seconds. -/
structure SignedUrl where
  path : String
  lifetimeSecs : Int
  deriving Repr, DecidableEq

/-- One row of the `file_metadata` table, with the column names of the
database schema used by `fileService.ts`. -/
structure Row where
  id : String
  user_id : String
  storage_path : String
  original_name : String
  file_type : String
  size : Nat
  upload_date : Int
  share_url : SignedUrl
  expires_at : Option Int
  deriving Repr, DecidableEq

/-- The `FileMetadata` interface returned to callers of the service
(`fileService.ts` lines 4-13). -/
structure FileMetadata where
  id : String
  userId : String
  originalName : String
  fileType : String
  size : Nat
  uploadDate : Int
  shareUrl : SignedUrl
  expiresAt : Option Int
  deriving Repr, DecidableEq

/-- The row-to-interface mapping each service function performs when
returning data (e.g. `fileService.ts` lines 65-74). -/
def Row.toMetadata (r : Row) : FileMetadata :=
  { id := r.id
    userId := r.user_id
    originalName := r.original_name
    fileType := r.file_type
    size := r.size
    uploadDate := r.upload_date
    shareUrl := r.share_url
    expiresAt := r.expires_at }

/-- A backend request, as recorded on the call trace. -/
inductive BackendCall where
  | storagePut (path : String)
  | storageSign (path : String) (lifetimeSecs : Int)
  | storageRemove (path : String)
  | metaInsert (row : Row)
  | metaSelect
  | metaUpdate
  | metaDelete
  deriving Repr, DecidableEq

/-- Injected backend failures, one flag per fallible backend request. -/
structure Env where
  uploadFails : Bool
  signFails : Bool
  insertFails : Bool
  fetchFails : Bool
  removeFails : Bool
  deleteFails : Bool
  updateFails : Bool
  deriving Repr, DecidableEq

/-- The environment in which every backend request succeeds. -/
def Env.ok : Env :=
  { uploadFails := false, signFails := false, insertFails := false
    fetchFails := false, removeFails := false, deleteFails := false
    updateFails := false }

/-- The combined backend state: the storage bucket's object paths, the
`file_metadata` table, and the trace of backend requests issued so far. -/
structure St where
  storage : List String
  meta : List Row
  calls : List BackendCall
  deriving Repr, DecidableEq

/-- Append one backend request to the trace. -/
def St.call (s : St) (c : BackendCall) : St :=
  { s with calls := s.calls ++ [c] }

/-- The uploaded `File` object, with the fields the service reads. -/
structure JsFile where
  name : String
  type : String
  size : Nat
  deriving Repr, DecidableEq

/-- JavaScript truthiness of `expiresIn : number | null`: `null` and `0`
are falsy, every other number is truthy. -/
def jsTruthy : Option Int → Bool
  | some n => n != 0
  | none => false

/-- The signed-URL lifetime the code requests:
`expiresIn ? expiresIn * 24 * 60 * 60 : 365 * 24 * 60 * 60`
(`fileService.ts` lines 44 and 155). -/
def jsLifetime (expiresIn : Option Int) : Int :=
  if jsTruthy expiresIn then expiresIn.getD 0 * 24 * 60 * 60
  else 365 * 24 * 60 * 60

/-- The stored expiration the code computes:
`expiresIn ? new Date(Date.now() + expiresIn * 86400000) : null`
(`fileService.ts` lines 58 and 163). -/
def jsExpiry (expiresIn : Option Int) (now : Int) : Option Int :=
  if jsTruthy expiresIn then some (now + expiresIn.getD 0 * 86400000)
  else none

/-- The size cap of `uploadFile`: `const maxSize = 50 * 1024 * 1024`
(`fileService.ts` line 21). -/
def maxSize : Nat := 50 * 1024 * 1024

/-- The row `uploadFile` inserts into `file_metadata`
(`fileService.ts` lines 49-59), factored out so theorems can name it. -/
def mkRow (file : JsFile) (userId : String) (expiresIn : Option Int)
    (now : Int) (newId : String) (filePath : String) : Row :=
  { id := newId, user_id := userId, storage_path := filePath
    original_name := file.name, file_type := file.type
    size := file.size, upload_date := now
    share_url := { path := filePath, lifetimeSecs := jsLifetime expiresIn }
    expires_at := jsExpiry expiresIn now }

/-- `uploadFile` (`fileService.ts` lines 15-79). `now` stands for
`Date.now()`, `newId` for the id the database assigns to the inserted row,
and `filePath` for the generated unique path (the code composes it from
`userId`, `Date.now()` and a random suffix; the composition is opaque to
every property, so the path is a parameter here). Returns the result
(`Except` mirroring throw) together with the final backend state. -/
def uploadFile (file : JsFile) (userId : String) (expiresIn : Option Int)
    (now : Int) (newId : String) (filePath : String) (env : Env) (s : St) :
    Except String FileMetadata × St :=
  if file.size > maxSize then
    (.error "File size exceeds the maximum limit of 50MB", s)
  else
    let s1 := s.call (.storagePut filePath)
    if env.uploadFails then (.error "upload failed", s1)
    else
      let s2 := { s1 with storage := s1.storage ++ [filePath] }
      let s3 := s2.call (.storageSign filePath (jsLifetime expiresIn))
      if env.signFails then (.error "Failed to generate share URL", s3)
      else
        let row : Row := mkRow file userId expiresIn now newId filePath
        let s4 := s3.call (.metaInsert row)
        if env.insertFails then (.error "metadata insert failed", s4)
        else (.ok row.toMetadata, { s4 with meta := s4.meta ++ [row] })

/-- The descending order on rows used by
`.order('upload_date', { ascending: false })`. -/
def uploadDateDesc (a b : Row) : Prop :=
  b.upload_date ≤ a.upload_date

instance : DecidableRel uploadDateDesc := fun a b =>
  inferInstanceAs (Decidable (b.upload_date ≤ a.upload_date))

/-- `getUserFiles` (`fileService.ts` lines 81-100): select all rows with
`user_id = userId`, ordered by `upload_date` descending, and map each to
`FileMetadata`. No condition on `expires_at` appears in the query. -/
def getUserFiles (userId : String) (s : St) : List FileMetadata :=
  (((s.meta.filter (fun r => r.user_id == userId)).insertionSort
      uploadDateDesc).map Row.toMetadata)

/-- `deleteFile` (`fileService.ts` lines 102-135): fetch the row's
`storage_path` by `id` and `user_id` (`.single()` errors unless exactly
one row matches), remove the blob, then delete the metadata row; any
error is caught and turns into `false`. -/
def deleteFile (fileId userId : String) (env : Env) (s : St) : Bool × St :=
  let s1 := s.call .metaSelect
  match (if env.fetchFails then []
         else s1.meta.filter (fun r => r.id == fileId && r.user_id == userId)) with
  | [row] =>
    let s2 := s1.call (.storageRemove row.storage_path)
    if env.removeFails then (false, s2)
    else
      let s3 := { s2 with storage := s2.storage.filter (fun p => p != row.storage_path) }
      let s4 := s3.call .metaDelete
      if env.deleteFails then (false, s4)
      else (true, { s4 with
        meta := s4.meta.filter (fun r => !(r.id == fileId && r.user_id == userId)) })
  | _ => (false, s1)

/-- `updateFileExpiration` (`fileService.ts` lines 137-186): fetch the row
by `id` and `user_id`, request a fresh signed URL for the new lifetime,
then update `share_url` and `expires_at` together in one update; any
error is caught and turns into `null`. -/
def updateFileExpiration (fileId userId : String) (expiresIn : Option Int)
    (now : Int) (env : Env) (s : St) : Option FileMetadata × St :=
  let s1 := s.call .metaSelect
  match (if env.fetchFails then []
         else s1.meta.filter (fun r => r.id == fileId && r.user_id == userId)) with
  | [row] =>
    let lifetime := jsLifetime expiresIn
    let s2 := s1.call (.storageSign row.storage_path lifetime)
    if env.signFails then (none, s2)
    else
      let url : SignedUrl := { path := row.storage_path, lifetimeSecs := lifetime }
      let newExp := jsExpiry expiresIn now
      let s3 := s2.call .metaUpdate
      if env.updateFails then (none, s3)
      else
        let upd : Row → Row := fun r =>
          if r.id == fileId && r.user_id == userId then
            { r with share_url := url, expires_at := newExp }
          else r
        (some (Row.toMetadata { row with share_url := url, expires_at := newExp }),
         { s3 with meta := s3.meta.map upd })
  | _ => (none, s1)

/-- `getFileByShareId` (`fileService.ts` lines 188-214): select the row by
`id` alone (`.single()` errors unless exactly one row matches, which the
code catches and maps to `null`) and return it mapped to `FileMetadata`.
The function consults no clock and reads `expires_at` only to copy it. -/
def getFileByShareId (fileId : String) (s : St) : Option FileMetadata :=
  match s.meta.filter (fun r => r.id == fileId) with
  | [row] => some row.toMetadata
  | _ => none

/-- `(x).toFixed(1)` for a nonnegative quotient `num / den`: the quotient
rendered with exactly one decimal digit, rounded to the nearest tenth,
ties upward. -/
def toFixed1 (num den : Nat) : String :=
  let tenths := (num * 10 * 2 + den) / (2 * den)
  toString (tenths / 10) ++ "." ++ toString (tenths % 10)

/-- `formatFileSize` (`fileService.ts` lines 216-226). -/
def formatFileSize (bytes : Nat) : String :=
  if bytes < 1024 then toString bytes ++ " bytes"
  else if bytes < 1048576 then toFixed1 bytes 1024 ++ " KB"
  else if bytes < 1073741824 then toFixed1 bytes 1048576 ++ " MB"
  else toFixed1 bytes 1073741824 ++ " GB"

/-! ### Concrete backend states used by counterexamples and witnesses -/

/-- An empty backend: no blobs, no metadata rows, empty trace. -/
def st0 : St := { storage := [], meta := [], calls := [] }

/-- A metadata row, owned by user `"u"`, whose `expires_at` (500) is
already in the past relative to the reference instant `now = 1000`. -/
def rowExpired : Row :=
  { id := "f1", user_id := "u", storage_path := "p1"
    original_name := "a.txt", file_type := "text/plain", size := 5
    upload_date := 10, share_url := { path := "p1", lifetimeSecs := 86400 }
    expires_at := some 500 }

/-- A backend holding exactly the expired record `rowExpired`. -/
def stExp : St := { storage := ["p1"], meta := [rowExpired], calls := [] }

/-- Does a backend call remove a blob from storage? -/
def BackendCall.isStorageRemove : BackendCall → Bool
  | .storageRemove _ => true
  | _ => false

/-! ### Helper lemmas on the success paths -/

/-- Under the all-successful environment, `uploadFile` on a file within
the size cap writes the blob, signs the URL, inserts `mkRow`, and
returns it. -/
theorem uploadFile_ok_eq (file : JsFile) (userId : String)
    (expiresIn : Option Int) (now : Int) (newId filePath : String) (s : St)
    (h : ¬ file.size > maxSize) :
    uploadFile file userId expiresIn now newId filePath Env.ok s =
      (.ok (mkRow file userId expiresIn now newId filePath).toMetadata,
       { storage := s.storage ++ [filePath]
         meta := s.meta ++ [mkRow file userId expiresIn now newId filePath]
         calls := s.calls ++
           [.storagePut filePath,
            .storageSign filePath (jsLifetime expiresIn),
            .metaInsert (mkRow file userId expiresIn now newId filePath)] }) := by
  simp [uploadFile, Env.ok, St.call, h]

/-- Under the all-successful environment, `updateFileExpiration` on a
present row signs a fresh URL and stores it together with the new
`expires_at`. -/
theorem updateFileExpiration_ok_eq (fileId userId : String)
    (expiresIn : Option Int) (now : Int) (s : St) (row : Row)
    (hrow : s.meta.filter (fun r => r.id == fileId && r.user_id == userId) = [row]) :
    updateFileExpiration fileId userId expiresIn now Env.ok s =
      (some (Row.toMetadata { row with
         share_url := { path := row.storage_path, lifetimeSecs := jsLifetime expiresIn }
         expires_at := jsExpiry expiresIn now }),
       { storage := s.storage
         meta := s.meta.map (fun r =>
           if r.id == fileId && r.user_id == userId then
             { r with
               share_url := { path := row.storage_path, lifetimeSecs := jsLifetime expiresIn }
               expires_at := jsExpiry expiresIn now }
           else r)
         calls := s.calls ++
           [.metaSelect,
            .storageSign row.storage_path (jsLifetime expiresIn),
            .metaUpdate] }) := by
  simp [updateFileExpiration, Env.ok, St.call, hrow]

/-- For a truthy (nonzero) day count the requested URL lifetime is
`n` days in seconds. -/
theorem jsLifetime_some (n : Int) (h : n ≠ 0) :
    jsLifetime (some n) = n * 86400 := by
  simp [jsLifetime, jsTruthy, bne_iff_ne, h]
  ring

/-- With no day count the requested URL lifetime is the 365-day default. -/
theorem jsLifetime_none : jsLifetime none = 365 * 86400 := by
  simp [jsLifetime, jsTruthy]

/-- For a truthy (nonzero) day count the stored expiration is
`now + n` days in milliseconds. -/
theorem jsExpiry_some (n now : Int) (h : n ≠ 0) :
    jsExpiry (some n) now = some (now + n * 86400000) := by
  simp [jsExpiry, jsTruthy, bne_iff_ne, h]

/-- With no day count the stored expiration is `null`. -/
theorem jsExpiry_none (now : Int) : jsExpiry none now = none := rfl

/-! ### Claim theorems -/

/-- C1 counterexample: on a backend holding one record owned by `"u"`
whose `expires_at = 500` has already passed relative to `now = 1000`,
`getUserFiles "u"` still returns that record, while the claim requires
expired records to be excluded from the listing. -/
theorem C1_counterexample_expired_record_listed :
    rowExpired.expires_at = some 500 ∧ (500 : Int) < 1000 ∧
    getUserFiles "u" stExp = [rowExpired.toMetadata] := by
  decide

/-- C1 (amended): `getUserFiles ownerId` returns exactly the records
owned by `ownerId` — including records whose `expires_at` has passed,
which are not excluded — ordered by `upload_date` descending. -/
theorem C1_getUserFiles_owned_sorted_no_expiry_filter
    (userId : String) (s : St) :
    (∀ m, m ∈ getUserFiles userId s ↔
      ∃ r, r ∈ s.meta ∧ r.user_id = userId ∧ m = r.toMetadata) ∧
    (getUserFiles userId s).Pairwise
      (fun a b => b.uploadDate ≤ a.uploadDate) := by
  constructor
  · intro m
    simp only [getUserFiles, List.mem_map, List.mem_insertionSort,
      List.mem_filter, beq_iff_eq]
    constructor
    · rintro ⟨r, ⟨hr, hu⟩, hm⟩
      exact ⟨r, hr, hu, hm.symm⟩
    · rintro ⟨r, hr, hu, hm⟩
      exact ⟨r, ⟨hr, hu⟩, hm.symm⟩
  · haveI : IsTotal Row uploadDateDesc :=
      ⟨fun a b => le_total b.upload_date a.upload_date⟩
    haveI : IsTrans Row uploadDateDesc :=
      ⟨fun _ _ _ hab hbc => le_trans hbc hab⟩
    exact List.Pairwise.map Row.toMetadata (fun _ _ h => h)
      (List.sorted_insertionSort uploadDateDesc _)

/-- C1 witness: the amended listing theorem applied to the concrete
expired-record backend. -/
theorem C1_witness :
    rowExpired.toMetadata ∈ getUserFiles "u" stExp :=
  ((C1_getUserFiles_owned_sorted_no_expiry_filter "u" stExp).1
      rowExpired.toMetadata).mpr ⟨rowExpired, by decide, rfl, rfl⟩

/-- C2 counterexample: `getFileByShareId` on the record whose
`expires_at = 500` has passed relative to `now = 1000` returns the full
record, while a nonexistent id returns `none` — the two outcomes are
distinguishable, contradicting the claim that both are `none`. -/
theorem C2_counterexample_expired_record_returned :
    rowExpired.expires_at = some 500 ∧ (500 : Int) ≤ 1000 ∧
    getFileByShareId "f1" stExp = some rowExpired.toMetadata ∧
    getFileByShareId "missing" stExp = none := by
  decide

/-- C2 (amended): `getFileByShareId` returns the not-found outcome
(`none`) exactly when the lookup by `id` yields no row; when a unique row
with the id exists it is returned in full regardless of `expires_at`, so
an expired record is distinguishable from a nonexistent id. -/
theorem C2_getFileByShareId_no_expiry_check (fileId : String) (s : St) :
    (s.meta.filter (fun r => r.id == fileId) = [] →
      getFileByShareId fileId s = none) ∧
    (∀ row, s.meta.filter (fun r => r.id == fileId) = [row] →
      getFileByShareId fileId s = some row.toMetadata) := by
  constructor
  · intro h
    simp [getFileByShareId, h]
  · intro row h
    simp [getFileByShareId, h]

/-- C2 witness: the amended lookup theorem applied to the concrete
expired-record backend. -/
theorem C2_witness :
    getFileByShareId "f1" stExp = some rowExpired.toMetadata :=
  (C2_getFileByShareId_no_expiry_check "f1" stExp).2 rowExpired (by decide)

/-- C3 counterexample: a concrete upload in which the blob write and URL
signing succeed but the metadata insert fails. The error is surfaced, the
blob `"p"` is left in storage, and the trace holds no storage-remove
call — no best-effort cleanup is attempted, contradicting the claim. -/
theorem C3_counterexample_no_cleanup_attempted :
    uploadFile { name := "a.txt", type := "t", size := 5 } "u" none 0 "i" "p"
        { Env.ok with insertFails := true } st0 =
      (.error "metadata insert failed",
       { storage := ["p"]
         meta := []
         calls := [.storagePut "p", .storageSign "p" 31536000,
           .metaInsert (mkRow { name := "a.txt", type := "t", size := 5 }
             "u" none 0 "i" "p")] }) := by
  decide

/-- C3 (amended): when the blob write and URL signing succeed but the
metadata insert fails, `uploadFile` surfaces the error and leaves no
partial record queryable (the metadata table is unchanged), but attempts
no blob cleanup: the blob stays in storage and the trace gains no
storage-remove call. -/
theorem C3_insert_failure_leaves_orphan_blob
    (file : JsFile) (userId : String) (expiresIn : Option Int) (now : Int)
    (newId filePath : String) (s : St) (h : ¬ file.size > maxSize) :
    (uploadFile file userId expiresIn now newId filePath
        { Env.ok with insertFails := true } s).1 =
      .error "metadata insert failed" ∧
    (uploadFile file userId expiresIn now newId filePath
        { Env.ok with insertFails := true } s).2.storage =
      s.storage ++ [filePath] ∧
    (uploadFile file userId expiresIn now newId filePath
        { Env.ok with insertFails := true } s).2.meta = s.meta ∧
    (uploadFile file userId expiresIn now newId filePath
        { Env.ok with insertFails := true } s).2.calls.filter
        BackendCall.isStorageRemove =
      s.calls.filter BackendCall.isStorageRemove := by
  simp [uploadFile, Env.ok, St.call, h, List.filter_append,
    BackendCall.isStorageRemove]

/-- C3 witness: the amended insert-failure theorem at a concrete input. -/
theorem C3_witness :
    (uploadFile { name := "b", type := "t", size := 7 } "u2" (some 7) 1000
        "i2" "q" { Env.ok with insertFails := true } st0).1 =
      .error "metadata insert failed" ∧
    (uploadFile { name := "b", type := "t", size := 7 } "u2" (some 7) 1000
        "i2" "q" { Env.ok with insertFails := true } st0).2.storage =
      st0.storage ++ ["q"] ∧
    (uploadFile { name := "b", type := "t", size := 7 } "u2" (some 7) 1000
        "i2" "q" { Env.ok with insertFails := true } st0).2.meta = st0.meta ∧
    (uploadFile { name := "b", type := "t", size := 7 } "u2" (some 7) 1000
        "i2" "q" { Env.ok with insertFails := true } st0).2.calls.filter
        BackendCall.isStorageRemove =
      st0.calls.filter BackendCall.isStorageRemove :=
  C3_insert_failure_leaves_orphan_blob { name := "b", type := "t", size := 7 }
    "u2" (some 7) 1000 "i2" "q" st0 (by decide)

/-- C4: `deleteFile` removes the blob strictly before deleting the
metadata row. If no row matches the id and owner, the call returns
`false` with both stores unmutated; if blob removal fails, the metadata
table is untouched and the call returns `false`; on the found-row path
with blob removal succeeding, the trace shows the storage-remove call
strictly before the metadata-delete call, and the fully successful run
returns `true` with the blob and the row both gone. -/
theorem C4_deleteFile_blob_before_metadata
    (fileId userId : String) (env : Env) (s : St) :
    (s.meta.filter (fun r => r.id == fileId && r.user_id == userId) = [] →
      (deleteFile fileId userId env s).1 = false ∧
      (deleteFile fileId userId env s).2.storage = s.storage ∧
      (deleteFile fileId userId env s).2.meta = s.meta) ∧
    (env.removeFails = true →
      (deleteFile fileId userId env s).1 = false ∧
      (deleteFile fileId userId env s).2.meta = s.meta) ∧
    (∀ row, env.fetchFails = false →
      s.meta.filter (fun r => r.id == fileId && r.user_id == userId) = [row] →
      env.removeFails = false →
      (deleteFile fileId userId env s).2.calls =
        s.calls ++ [.metaSelect, .storageRemove row.storage_path, .metaDelete] ∧
      (env.deleteFails = false →
        (deleteFile fileId userId env s).1 = true ∧
        (deleteFile fileId userId env s).2.storage =
          s.storage.filter (fun p => p != row.storage_path) ∧
        (deleteFile fileId userId env s).2.meta =
          s.meta.filter (fun r => !(r.id == fileId && r.user_id == userId)))) := by
  refine ⟨?_, ?_, ?_⟩
  · intro h
    cases hf : env.fetchFails <;>
      simp [deleteFile, St.call, h, hf]
  · intro hrm
    cases hf : env.fetchFails
    · rcases hm : s.meta.filter (fun r => r.id == fileId && r.user_id == userId) with
        _ | ⟨row, _ | ⟨r2, rest⟩⟩ <;>
        simp [deleteFile, St.call, hf, hm, hrm]
    · simp [deleteFile, St.call, hf]
  · intro row hf hm hrm
    cases hd : env.deleteFails <;>
      simp [deleteFile, St.call, hf, hm, hrm, hd]

/-- C4 witness: deleting the concrete record `"f1"` owned by `"u"` under
the all-successful environment empties both stores, with the
storage-remove call traced strictly before the metadata-delete call. -/
theorem C4_witness :
    (deleteFile "f1" "u" Env.ok stExp).2.calls =
      stExp.calls ++ [.metaSelect, .storageRemove "p1", .metaDelete] ∧
    (deleteFile "f1" "u" Env.ok stExp).1 = true ∧
    (deleteFile "f1" "u" Env.ok stExp).2.storage =
      stExp.storage.filter (fun p => p != "p1") ∧
    (deleteFile "f1" "u" Env.ok stExp).2.meta =
      stExp.meta.filter (fun r => !(r.id == "f1" && r.user_id == "u")) := by
  have h := (C4_deleteFile_blob_before_metadata "f1" "u" Env.ok stExp).2.2
    rowExpired rfl (by decide) rfl
  exact ⟨h.1, (h.2 rfl).1, (h.2 rfl).2.1, (h.2 rfl).2.2⟩

/-- C7: with a day count `n > 0`, `uploadFile` and `updateFileExpiration`
store `expires_at = now + n · 86400000` milliseconds (that is, `now`
plus `n × 86400` seconds); with no day count the stored `expires_at` is
`null`. The upload conjuncts also locate the inserted row; the update
conjuncts locate the updated row in the metadata table. -/
theorem C7_expiration_arithmetic :
    (∀ (file : JsFile) (userId : String) (n now : Int)
        (newId filePath : String) (s : St),
      ¬ file.size > maxSize → 0 < n →
      ∃ m st', uploadFile file userId (some n) now newId filePath Env.ok s =
          (.ok m, st') ∧
        m.expiresAt = some (now + n * 86400000) ∧
        ∃ r, st'.meta = s.meta ++ [r] ∧
          r.expires_at = some (now + n * 86400000)) ∧
    (∀ (file : JsFile) (userId : String) (now : Int)
        (newId filePath : String) (s : St),
      ¬ file.size > maxSize →
      ∃ m st', uploadFile file userId none now newId filePath Env.ok s =
          (.ok m, st') ∧
        m.expiresAt = none ∧
        ∃ r, st'.meta = s.meta ++ [r] ∧ r.expires_at = none) ∧
    (∀ (fileId userId : String) (n now : Int) (s : St) (row : Row),
      s.meta.filter (fun r => r.id == fileId && r.user_id == userId) = [row] →
      0 < n →
      ∃ m st', updateFileExpiration fileId userId (some n) now Env.ok s =
          (some m, st') ∧
        m.expiresAt = some (now + n * 86400000) ∧
        ∃ r2, r2 ∈ st'.meta ∧ r2.id = row.id ∧
          r2.expires_at = some (now + n * 86400000)) ∧
    (∀ (fileId userId : String) (now : Int) (s : St) (row : Row),
      s.meta.filter (fun r => r.id == fileId && r.user_id == userId) = [row] →
      ∃ m st', updateFileExpiration fileId userId none now Env.ok s =
          (some m, st') ∧
        m.expiresAt = none ∧
        ∃ r2, r2 ∈ st'.meta ∧ r2.id = row.id ∧ r2.expires_at = none) := by
  refine ⟨?_, ?_, ?_, ?_⟩
  · intro file userId n now newId filePath s h hn
    rw [uploadFile_ok_eq file userId (some n) now newId filePath s h]
    exact ⟨_, _, rfl,
      by simp [mkRow, Row.toMetadata, jsExpiry_some n now hn.ne'],
      mkRow file userId (some n) now newId filePath, rfl,
      by simp [mkRow, jsExpiry_some n now hn.ne']⟩
  · intro file userId now newId filePath s h
    rw [uploadFile_ok_eq file userId none now newId filePath s h]
    exact ⟨_, _, rfl, by simp [mkRow, Row.toMetadata, jsExpiry_none],
      mkRow file userId none now newId filePath, rfl,
      by simp [mkRow, jsExpiry_none]⟩
  · intro fileId userId n now s row hm hn
    have hrowf : row ∈ s.meta.filter
        (fun r => r.id == fileId && r.user_id == userId) := by
      rw [hm]; exact List.mem_singleton_self row
    have hrow : row ∈ s.meta := (List.mem_filter.mp hrowf).1
    have hpred : (row.id == fileId && row.user_id == userId) = true :=
      (List.mem_filter.mp hrowf).2
    rw [updateFileExpiration_ok_eq fileId userId (some n) now s row hm]
    refine ⟨_, _, rfl,
      by simp [Row.toMetadata, jsExpiry_some n now hn.ne'], ?_⟩
    refine ⟨{ row with
        share_url := { path := row.storage_path
                       lifetimeSecs := jsLifetime (some n) }
        expires_at := jsExpiry (some n) now }, ?_, rfl,
      by simp [jsExpiry_some n now hn.ne']⟩
    have := List.mem_map_of_mem (fun r =>
      if r.id == fileId && r.user_id == userId then
        { r with
          share_url := { path := row.storage_path
                         lifetimeSecs := jsLifetime (some n) }
          expires_at := jsExpiry (some n) now }
      else r) hrow
    simpa [hpred] using this
  · intro fileId userId now s row hm
    have hrowf : row ∈ s.meta.filter
        (fun r => r.id == fileId && r.user_id == userId) := by
      rw [hm]; exact List.mem_singleton_self row
    have hrow : row ∈ s.meta := (List.mem_filter.mp hrowf).1
    have hpred : (row.id == fileId && row.user_id == userId) = true :=
      (List.mem_filter.mp hrowf).2
    rw [updateFileExpiration_ok_eq fileId userId none now s row hm]
    refine ⟨_, _, rfl, by simp [Row.toMetadata, jsExpiry_none], ?_⟩
    refine ⟨{ row with
        share_url := { path := row.storage_path
                       lifetimeSecs := jsLifetime none }
        expires_at := jsExpiry none now }, ?_, rfl, by simp [jsExpiry_none]⟩
    have := List.mem_map_of_mem (fun r =>
      if r.id == fileId && r.user_id == userId then
        { r with
          share_url := { path := row.storage_path
                         lifetimeSecs := jsLifetime none }
          expires_at := jsExpiry none now }
      else r) hrow
    simpa [hpred] using this

/-- C7 witness: the expiration arithmetic at concrete inputs — an upload
with `expiresIn = 7` starting at `now = 1000`, and an update of the
concrete record `"f1"` to `expiresIn = null`. -/
theorem C7_witness :
    (∃ m st', uploadFile { name := "a", type := "t", size := 5 } "u" (some 7)
        1000 "i" "p" Env.ok st0 = (.ok m, st') ∧
      m.expiresAt = some (1000 + 7 * 86400000) ∧
      ∃ r, st'.meta = st0.meta ++ [r] ∧
        r.expires_at = some (1000 + 7 * 86400000)) ∧
    (∃ m st', updateFileExpiration "f1" "u" none 2000 Env.ok stExp =
        (some m, st') ∧
      m.expiresAt = none ∧
      ∃ r2, r2 ∈ st'.meta ∧ r2.id = rowExpired.id ∧ r2.expires_at = none) :=
  ⟨C7_expiration_arithmetic.1 { name := "a", type := "t", size := 5 } "u" 7
      1000 "i" "p" st0 (by decide) (by decide),
   C7_expiration_arithmetic.2.2.2 "f1" "u" 2000 stExp rowExpired (by decide)⟩

/-- C8: both `uploadFile` and `updateFileExpiration` request a fresh
signed URL from storage with lifetime `n × 86400` seconds when a positive
day count is given and `365 × 86400` seconds (the 365-day default) when
it is not, and the new `share_url` is persisted together with the new
`expires_at` in the same update (the single map over the metadata table
rewrites both fields at once). -/
theorem C8_shareUrl_regenerated_with_expiresAt :
    (∀ (file : JsFile) (userId : String) (n now : Int)
        (newId filePath : String) (s : St),
      ¬ file.size > maxSize → 0 < n →
      ∃ m st', uploadFile file userId (some n) now newId filePath Env.ok s =
          (.ok m, st') ∧
        m.shareUrl = { path := filePath, lifetimeSecs := n * 86400 } ∧
        BackendCall.storageSign filePath (n * 86400) ∈ st'.calls) ∧
    (∀ (file : JsFile) (userId : String) (now : Int)
        (newId filePath : String) (s : St),
      ¬ file.size > maxSize →
      ∃ m st', uploadFile file userId none now newId filePath Env.ok s =
          (.ok m, st') ∧
        m.shareUrl = { path := filePath, lifetimeSecs := 365 * 86400 } ∧
        BackendCall.storageSign filePath (365 * 86400) ∈ st'.calls) ∧
    (∀ (fileId userId : String) (n now : Int) (s : St) (row : Row),
      s.meta.filter (fun r => r.id == fileId && r.user_id == userId) = [row] →
      0 < n →
      ∃ m st', updateFileExpiration fileId userId (some n) now Env.ok s =
          (some m, st') ∧
        m.shareUrl = { path := row.storage_path, lifetimeSecs := n * 86400 } ∧
        m.expiresAt = some (now + n * 86400000) ∧
        BackendCall.storageSign row.storage_path (n * 86400) ∈ st'.calls ∧
        st'.meta = s.meta.map (fun r =>
          if r.id == fileId && r.user_id == userId then
            { r with
              share_url := { path := row.storage_path
                             lifetimeSecs := n * 86400 }
              expires_at := some (now + n * 86400000) }
          else r)) ∧
    (∀ (fileId userId : String) (now : Int) (s : St) (row : Row),
      s.meta.filter (fun r => r.id == fileId && r.user_id == userId) = [row] →
      ∃ m st', updateFileExpiration fileId userId none now Env.ok s =
          (some m, st') ∧
        m.shareUrl = { path := row.storage_path
                       lifetimeSecs := 365 * 86400 } ∧
        m.expiresAt = none ∧
        BackendCall.storageSign row.storage_path (365 * 86400) ∈ st'.calls ∧
        st'.meta = s.meta.map (fun r =>
          if r.id == fileId && r.user_id == userId then
            { r with
              share_url := { path := row.storage_path
                             lifetimeSecs := 365 * 86400 }
              expires_at := none }
          else r)) := by
  refine ⟨?_, ?_, ?_, ?_⟩
  · intro file userId n now newId filePath s h hn
    rw [uploadFile_ok_eq file userId (some n) now newId filePath s h,
      jsLifetime_some n hn.ne']
    exact ⟨_, _, rfl,
      by simp [mkRow, Row.toMetadata, jsLifetime_some n hn.ne'], by simp⟩
  · intro file userId now newId filePath s h
    rw [uploadFile_ok_eq file userId none now newId filePath s h,
      jsLifetime_none]
    exact ⟨_, _, rfl,
      by simp [mkRow, Row.toMetadata, jsLifetime_none], by simp⟩
  · intro fileId userId n now s row hm hn
    rw [updateFileExpiration_ok_eq fileId userId (some n) now s row hm,
      jsLifetime_some n hn.ne', jsExpiry_some n now hn.ne']
    exact ⟨_, _, rfl, by simp [Row.toMetadata], by simp [Row.toMetadata],
      by simp, rfl⟩
  · intro fileId userId now s row hm
    rw [updateFileExpiration_ok_eq fileId userId none now s row hm,
      jsLifetime_none, jsExpiry_none]
    exact ⟨_, _, rfl, by simp [Row.toMetadata], by simp [Row.toMetadata],
      by simp, rfl⟩

/-- C8 witness: the URL-lifetime theorem at concrete inputs — an upload
with `expiresIn = 7` and an update of `"f1"` to `expiresIn = null`. -/
theorem C8_witness :
    (∃ m st', uploadFile { name := "a", type := "t", size := 5 } "u" (some 7)
        1000 "i" "p" Env.ok st0 = (.ok m, st') ∧
      m.shareUrl = { path := "p", lifetimeSecs := 7 * 86400 } ∧
      BackendCall.storageSign "p" (7 * 86400) ∈ st'.calls) ∧
    (∃ m st', updateFileExpiration "f1" "u" none 2000 Env.ok stExp =
        (some m, st') ∧
      m.shareUrl = { path := rowExpired.storage_path
                     lifetimeSecs := 365 * 86400 } ∧
      m.expiresAt = none ∧
      BackendCall.storageSign rowExpired.storage_path (365 * 86400) ∈
        st'.calls ∧
      st'.meta = stExp.meta.map (fun r =>
        if r.id == "f1" && r.user_id == "u" then
          { r with
            share_url := { path := rowExpired.storage_path
                           lifetimeSecs := 365 * 86400 }
            expires_at := none }
        else r)) :=
  ⟨C8_shareUrl_regenerated_with_expiresAt.1 { name := "a", type := "t", size := 5 }
      "u" 7 1000 "i" "p" st0 (by decide) (by decide),
   C8_shareUrl_regenerated_with_expiresAt.2.2.2 "f1" "u" 2000 stExp rowExpired
      (by decide)⟩

/-- C10: `expiresIn = 0` is treated exactly like `null` ("never
expires"), because the code branches on JavaScript truthiness: the whole
`uploadFile` and `updateFileExpiration` runs coincide for `some 0` and
`none` in every environment, the stored expiration is `null`, and the
URL lifetime is the 365-day default. -/
theorem C10_zero_expiresIn_is_never :
    (∀ (file : JsFile) (userId : String) (now : Int)
        (newId filePath : String) (env : Env) (s : St),
      uploadFile file userId (some 0) now newId filePath env s =
        uploadFile file userId none now newId filePath env s) ∧
    (∀ (fileId userId : String) (now : Int) (env : Env) (s : St),
      updateFileExpiration fileId userId (some 0) now env s =
        updateFileExpiration fileId userId none now env s) ∧
    (∀ now : Int, jsExpiry (some 0) now = none) ∧
    jsLifetime (some 0) = 365 * 86400 := by
  refine ⟨fun _ _ _ _ _ _ _ => rfl, fun _ _ _ _ _ => rfl, fun _ => rfl,
    by decide⟩

/-- C9: `formatFileSize` renders byte counts in binary (1024-based) units
at one decimal place, with breakpoints at 1024, 1024² and 1024³; on the
inputs 500, 2048, 5242880 and 2147483648 it returns `"500 bytes"`,
`"2.0 KB"`, `"5.0 MB"` and `"2.0 GB"`. The theorem checks the four quoted
values and the three breakpoints from both sides. -/
theorem C9_formatFileSize_spec_values :
    formatFileSize 500 = "500 bytes" ∧
    formatFileSize 2048 = "2.0 KB" ∧
    formatFileSize 5242880 = "5.0 MB" ∧
    formatFileSize 2147483648 = "2.0 GB" ∧
    formatFileSize 1023 = "1023 bytes" ∧
    formatFileSize 1024 = "1.0 KB" ∧
    formatFileSize 1048575 = "1024.0 KB" ∧
    formatFileSize 1048576 = "1.0 MB" ∧
    formatFileSize 1073741823 = "1024.0 MB" ∧
    formatFileSize 1073741824 = "1.0 GB" := by
  decide

/-- C6 counterexample: the claim says the maximum upload size is
100 × 1024 × 1024 bytes, under which a 100 MiB file does not exceed the
limit; but the code's cap is `50 * 1024 * 1024`, and `uploadFile` rejects
a 100 MiB file with the oversize error before any backend call. -/
theorem C6_counterexample_limit_is_not_100MiB :
    maxSize ≠ 100 * 1024 * 1024 ∧
    (uploadFile { name := "a.txt", type := "text/plain", size := 100 * 1024 * 1024 }
        "u" none 0 "i" "p" Env.ok st0) =
      (.error "File size exceeds the maximum limit of 50MB", st0) := by
  decide

/-- C6 (amended): the configured maximum upload size enforced by
`uploadFile` equals 50 × 1024 × 1024 bytes: a file one byte over that cap
is rejected with the oversize error, and a file exactly at the cap passes
the size validation (the all-successful run returns `.ok`). -/
theorem C6_maxSize_is_50MiB :
    maxSize = 50 * 1024 * 1024 ∧
    (uploadFile { name := "a.txt", type := "text/plain", size := 50 * 1024 * 1024 + 1 }
        "u" none 0 "i" "p" Env.ok st0).1 =
      .error "File size exceeds the maximum limit of 50MB" ∧
    (uploadFile { name := "a.txt", type := "text/plain", size := 50 * 1024 * 1024 }
        "u" none 0 "i" "p" Env.ok st0).1 =
      .ok (mkRow { name := "a.txt", type := "text/plain", size := 50 * 1024 * 1024 }
        "u" none 0 "i" "p").toMetadata := by
  decide

/-- C5: for every file whose size exceeds the configured maximum,
`uploadFile` fails with the validation error synchronously, returning the
backend state unchanged — in particular the call trace is unchanged, so
no Blob Store or Metadata Store call was attempted. -/
theorem C5_oversize_rejected_before_any_backend_call
    (file : JsFile) (userId : String) (expiresIn : Option Int) (now : Int)
    (newId filePath : String) (env : Env) (s : St)
    (h : file.size > maxSize) :
    uploadFile file userId expiresIn now newId filePath env s =
      (.error "File size exceeds the maximum limit of 50MB", s) := by
  simp [uploadFile, h]

/-- C5 witness: the oversize rejection at a concrete input. -/
theorem C5_witness :
    uploadFile { name := "big", type := "t", size := maxSize + 1 }
        "u" none 0 "i" "p" Env.ok st0 =
      (.error "File size exceeds the maximum limit of 50MB", st0) :=
  C5_oversize_rejected_before_any_backend_call _ "u" none 0 "i" "p" Env.ok st0
    (Nat.lt_succ_self maxSize)

end CloudDrop
